import Mathlib

/-!
Verification of the MockMate interview simulator's session controller,
setup-page validation and API gateway client, shallowly embedded from the
TypeScript source.

The session page keeps its state in React `useState` hooks; event handlers
close over the render-time values of those hooks.  We model one handler
invocation as a pure function on a `SessionState` record, threading the
render-time snapshot (`closure`) separately from the in-flight state
wherever the source reads a hook variable directly (stale-closure
semantics) rather than through a functional `setX(prev => ...)` update.
`Date` timestamps are abstracted as naturals supplied per event;
`localStorage.setItem('lastInterview', ...)` and `router.push` are modelled
by the `lastInterview`, `persistCount` and `navigations` fields.
-/

namespace MockMate

/-- Kind tag of a conversation entry (`'question' | 'answer'`). -/
inductive EntryKind where
  | question
  | answer
deriving DecidableEq, Repr

/-- `{type, content, timestamp}` element of the `conversation` state array. -/
structure ConversationEntry where
  type : EntryKind
  content : String
  timestamp : Nat
deriving DecidableEq, Repr

/-- Question type tag (`'technical' | 'behavioral'`). -/
inductive QuestionType where
  | technical
  | behavioral
deriving DecidableEq, Repr

/-- The `Question` interface of the session page. -/
structure Question where
  id : String
  text : String
  type : QuestionType
deriving DecidableEq, Repr

/-- The `InterviewConfig` interface: configuration captured by the setup page. -/
structure InterviewConfig where
  role : String
  customJobDescription : String
  interviewType : String
  difficulty : Nat
  duration : Nat
  inputMethod : String
deriving DecidableEq, Repr

/-- The `interviewData` object persisted under `'lastInterview'` by `endInterview`. -/
structure InterviewRecord where
  config : InterviewConfig
  conversation : List ConversationEntry
  completedAt : Nat
  questionsAnswered : Nat
  totalQuestions : Nat
deriving DecidableEq, Repr

/-- All `useState` hooks of `InterviewSessionPage` that the claims touch, plus
ghost fields recording external effects: `lastInterview` mirrors the
`localStorage` slot written by `endInterview`, `persistCount` counts
`localStorage.setItem('lastInterview', ...)` calls, and `navigations` counts
`router.push('/interview/feedback')` calls. -/
structure SessionState where
  config : InterviewConfig
  currentQuestion : Option Question
  questionIndex : Nat
  totalQuestions : Nat
  answer : String
  isLoading : Bool
  timeRemaining : Int
  sessionStarted : Bool
  conversation : List ConversationEntry
  errorMsg : String
  lastInterview : Option InterviewRecord
  persistCount : Nat
  navigations : Nat
deriving DecidableEq, Repr

/-- First element of the hard-coded `mockQuestions` array; it doubles as the
`|| mockQuestions[0]` fallback. -/
def firstMockQuestion : Question :=
  { id := "1"
    text := "Tell me about yourself and your background in software engineering."
    type := .behavioral }

/-- The hard-coded `mockQuestions` array of `generateNextQuestion`. -/
def mockQuestions : List Question :=
  [ firstMockQuestion
  , { id := "2"
      text := "How would you approach debugging a performance issue in a web application?"
      type := .technical }
  , { id := "3"
      text := "Describe a challenging project you worked on and how you overcame obstacles."
      type := .behavioral }
  , { id := "4"
      text := "Explain the difference between SQL and NoSQL databases and when you would use each."
      type := .technical }
  , { id := "5"
      text := "How do you handle working with difficult team members?"
      type := .behavioral }
  , { id := "6"
      text := "Design a system to handle 1 million concurrent users."
      type := .technical }
  , { id := "7"
      text := "What motivates you in your work?"
      type := .behavioral }
  , { id := "8"
      text := "Do you have any questions for me about the role or company?"
      type := .behavioral } ]

/-- `mockQuestions[questionIndex] || mockQuestions[0]`. -/
def pickQuestion (i : Nat) : Question :=
  (mockQuestions.get? i).getD firstMockQuestion

/-- `generateNextQuestion`, as invoked with the render-time value
`closureIdx` of the `questionIndex` hook (the source reads `questionIndex`
from its closure; the conversation append uses a functional update and so
acts on the current state `s`).  Net effect: set `currentQuestion`, append
one question entry, leave `isLoading` false (`finally` clause). -/
def generateNextQuestion (now : Nat) (closureIdx : Nat) (s : SessionState) : SessionState :=
  let question := pickQuestion closureIdx
  { s with isLoading := false
           currentQuestion := some question
           conversation := s.conversation ++
             [{ type := .question, content := question.text, timestamp := now }] }

/-- The `interviewData` record built inside `endInterview` from the handler's
render-time snapshot `closure` of the hooks. -/
def interviewData (closure : SessionState) (now : Nat) : InterviewRecord :=
  { config := closure.config
    conversation := closure.conversation
    completedAt := now
    questionsAnswered := closure.questionIndex + 1
    totalQuestions := closure.totalQuestions }

/-- `endInterview`: builds `interviewData` from the `closure` snapshot,
writes it to `localStorage` (`lastInterview` / `persistCount`) and calls
`router.push('/interview/feedback')` (`navigations`).  It mutates no hook. -/
def endInterview (now : Nat) (closure : SessionState) (s : SessionState) : SessionState :=
  { s with lastInterview := some (interviewData closure now)
           persistCount := s.persistCount + 1
           navigations := s.navigations + 1 }

/-- JavaScript `String.prototype.trim`: strip leading and trailing
whitespace.  Defined over the underlying character list so that it
evaluates by kernel reduction. -/
def jsTrim (s : String) : String :=
  String.mk (((s.data.dropWhile Char.isWhitespace).reverse.dropWhile
    Char.isWhitespace).reverse)

/-- The error message set by `submitAnswer` on an empty/whitespace answer. -/
def emptyAnswerMessage : String := "Please provide an answer before continuing."

/-- `submitAnswer`.  `s` is both the render-time snapshot of the hooks and
the starting state (a handler runs from the latest render).  The guard is
`!answer.trim()`.  The answer append and the clear use functional updates;
`generateNextQuestion` and `endInterview` are the render's own closures, so
they see the pre-handler `questionIndex` and `conversation`. -/
def submitAnswer (now : Nat) (s : SessionState) : SessionState :=
  if jsTrim s.answer = "" then
    { s with errorMsg := emptyAnswerMessage }
  else
    let s1 := { s with isLoading := true
                       conversation := s.conversation ++
                         [{ type := .answer, content := s.answer, timestamp := now }]
                       answer := "" }
    let s2 :=
      if s.questionIndex + 1 < s.totalQuestions then
        generateNextQuestion now s.questionIndex
          { s1 with questionIndex := s1.questionIndex + 1 }
      else
        endInterview now s s1
    { s2 with isLoading := false }

/-- `startInterview`: generates the first question (closure `questionIndex`
is 0 at mount) and sets `sessionStarted`. -/
def startInterview (now : Nat) (s : SessionState) : SessionState :=
  let s1 := generateNextQuestion now s.questionIndex { s with isLoading := true }
  { s1 with sessionStarted := true, isLoading := false }

/-- The timer `useEffect` body, run whenever `timeRemaining` or
`sessionStarted` changes: with time left it (only) schedules a timeout;
at zero while started it calls `endInterview` with the current render as
closure. -/
def timerEffect (now : Nat) (s : SessionState) : SessionState :=
  if s.sessionStarted ∧ 0 < s.timeRemaining then s
  else if s.timeRemaining = 0 ∧ s.sessionStarted then endInterview now s s
  else s

/-- One timer tick: the scheduled timeout fires (it is only ever scheduled
when `sessionStarted && timeRemaining > 0`), decrements `timeRemaining`,
and the effect re-runs on the new state. -/
def tick (now : Nat) (s : SessionState) : SessionState :=
  if s.sessionStarted ∧ 0 < s.timeRemaining then
    timerEffect now { s with timeRemaining := s.timeRemaining - 1 }
  else s

/-- The mount effect of `InterviewSessionPage`: load the config, set
`timeRemaining = duration * 60`, call `startInterview`, then the timer
effect runs on the started state. -/
def initSession (config : InterviewConfig) (now : Nat) : SessionState :=
  timerEffect now (startInterview now
    { config := config
      currentQuestion := none
      questionIndex := 0
      totalQuestions := 8
      answer := ""
      isLoading := false
      timeRemaining := (config.duration * 60 : Nat)
      sessionStarted := false
      conversation := []
      errorMsg := ""
      lastInterview := none
      persistCount := 0
      navigations := 0 })

/-- User-interface events that can reach the session page's handlers while
it is mounted: editing the answer box (typing, the Clear button, and
speech-recognition results all just set the `answer` hook), the Submit
button, a timer tick, and the End Interview button. -/
inductive Event where
  | setAnswer (text : String)
  | submit (now : Nat)
  | timerTick (now : Nat)
  | endButton (now : Nat)

/-- Effect of one event on the session state. -/
def stepEvent : Event → SessionState → SessionState
  | .setAnswer t, s => { s with answer := t }
  | .submit now, s => submitAnswer now s
  | .timerTick now, s => tick now s
  | .endButton now, s => endInterview now s s

/-- States reachable from a freshly mounted session page.  Events are only
delivered while the page has not navigated away (`router.push` unmounts
the session page). -/
inductive Reachable (config : InterviewConfig) (now₀ : Nat) : SessionState → Prop where
  | init : Reachable config now₀ (initSession config now₀)
  | step (e : Event) {s : SessionState} (hs : Reachable config now₀ s)
      (hnav : s.navigations = 0) : Reachable config now₀ (stepEvent e s)

/-- Number of answer entries in a conversation log. -/
def answerCount (l : List ConversationEntry) : Nat :=
  (l.filter (fun e => e.type = .answer)).length

/-- Number of question entries in a conversation log. -/
def questionCount (l : List ConversationEntry) : Nat :=
  (l.filter (fun e => e.type = .question)).length

/-- Kind skeleton of a conversation log. -/
def kindsOf (l : List ConversationEntry) : List EntryKind :=
  l.map (fun e => e.type)

/-- `k` alternating question/answer pairs. -/
def qaPairs : Nat → List EntryKind
  | 0 => []
  | k + 1 => EntryKind.question :: EntryKind.answer :: qaPairs k

/-- Bool test for the answer kind. -/
def isAnswerKind : EntryKind → Bool
  | .answer => true
  | .question => false

/-- Bool test for the question kind. -/
def isQuestionKind : EntryKind → Bool
  | .question => true
  | .answer => false

lemma answerCount_eq (l : List ConversationEntry) :
    answerCount l = ((kindsOf l).filter isAnswerKind).length := by
  induction l with
  | nil => rfl
  | cons e t ih =>
    cases he : e.type <;>
      simp [answerCount, kindsOf, List.filter_cons, he, isAnswerKind] at ih ⊢ <;>
      omega

lemma questionCount_eq (l : List ConversationEntry) :
    questionCount l = ((kindsOf l).filter isQuestionKind).length := by
  induction l with
  | nil => rfl
  | cons e t ih =>
    cases he : e.type <;>
      simp [questionCount, kindsOf, List.filter_cons, he, isQuestionKind] at ih ⊢ <;>
      omega

lemma kindsOf_append (l₁ l₂ : List ConversationEntry) :
    kindsOf (l₁ ++ l₂) = kindsOf l₁ ++ kindsOf l₂ :=
  List.map_append _ _ _

lemma qaPairs_append_pair (k : Nat) :
    qaPairs (k + 1) = qaPairs k ++ [EntryKind.question, EntryKind.answer] := by
  induction k with
  | zero => rfl
  | succ n ih =>
    calc qaPairs (n + 1 + 1)
        = EntryKind.question :: EntryKind.answer :: qaPairs (n + 1) := rfl
      _ = EntryKind.question :: EntryKind.answer ::
            (qaPairs n ++ [EntryKind.question, EntryKind.answer]) := by rw [ih]
      _ = (EntryKind.question :: EntryKind.answer :: qaPairs n) ++
            [EntryKind.question, EntryKind.answer] := by simp
      _ = qaPairs (n + 1) ++ [EntryKind.question, EntryKind.answer] := rfl

lemma filter_isAnswer_qaPairs (k : Nat) :
    ((qaPairs k).filter isAnswerKind).length = k := by
  induction k with
  | zero => rfl
  | succ n ih => simp [qaPairs, List.filter_cons, isAnswerKind, ih]

lemma filter_isQuestion_qaPairs (k : Nat) :
    ((qaPairs k).filter isQuestionKind).length = k := by
  induction k with
  | zero => rfl
  | succ n ih => simp [qaPairs, List.filter_cons, isQuestionKind, ih]

lemma head?_qaPairs_q (k : Nat) :
    (qaPairs k ++ [EntryKind.question]).head? = some EntryKind.question := by
  cases k <;> rfl

lemma chain_ne_qaPairs_q (k : Nat) :
    List.Chain' (fun x y => x ≠ y) (qaPairs k ++ [EntryKind.question]) := by
  induction k with
  | zero => simp [qaPairs]
  | succ n ih =>
    show List.Chain' (fun x y => x ≠ y)
      (EntryKind.question :: EntryKind.answer :: (qaPairs n ++ [EntryKind.question]))
    refine List.chain'_cons.mpr ⟨by simp, List.chain'_cons'.mpr ⟨?_, ih⟩⟩
    intro y hy
    rw [head?_qaPairs_q] at hy
    simp only [Option.mem_def, Option.some.injEq] at hy
    subst hy
    simp

lemma chain_ne_qaPairs (k : Nat) :
    List.Chain' (fun x y => x ≠ y) (qaPairs k) :=
  (chain_ne_qaPairs_q k).left_of_append

/-- Shape of the conversation log while a question is open: `questionIndex`
full question/answer pairs followed by the open question. -/
def activeShape (s : SessionState) : Prop :=
  kindsOf s.conversation = qaPairs s.questionIndex ++ [EntryKind.question]

/-- Shape of the conversation log in any state: either a question is open,
or the session ended on the final (8th) answer with a fully paired log. -/
def shapeOk (s : SessionState) : Prop :=
  (activeShape s ∧ s.questionIndex < 8) ∨
    (kindsOf s.conversation = qaPairs 8 ∧ s.questionIndex = 7)

/-- Global invariant of the session page: `totalQuestions` is the constant 8,
the timer never goes negative, the log has the alternating shape, and while
the page has not navigated away the session is started, `questionIndex < 8`
and a question is open. -/
def Inv (s : SessionState) : Prop :=
  s.totalQuestions = 8 ∧ 0 ≤ s.timeRemaining ∧ shapeOk s ∧
    (s.navigations = 0 → s.sessionStarted = true ∧ s.questionIndex < 8 ∧ activeShape s)

lemma inv_init (config : InterviewConfig) (now : Nat) : Inv (initSession config now) := by
  by_cases hd : config.duration = 0 <;>
    simp [initSession, startInterview, generateNextQuestion, timerEffect, endInterview,
      Inv, shapeOk, activeShape, kindsOf, qaPairs, hd]

lemma inv_step (e : Event) (s : SessionState) (hInv : Inv s) (hnav : s.navigations = 0) :
    Inv (stepEvent e s) := by
  obtain ⟨htot, htr, hshape, hact⟩ := hInv
  obtain ⟨hstart, hqlt, hshp⟩ := hact hnav
  cases e with
  | setAnswer t =>
    exact ⟨htot, htr, hshape, fun _ => ⟨hstart, hqlt, hshp⟩⟩
  | submit now =>
    show Inv (submitAnswer now s)
    by_cases he : jsTrim s.answer = ""
    · rw [submitAnswer, if_pos he]
      exact ⟨htot, htr, hshape, fun _ => ⟨hstart, hqlt, hshp⟩⟩
    · rw [submitAnswer, if_neg he]
      by_cases hlt : s.questionIndex + 1 < s.totalQuestions
      · simp only [hlt, if_true, generateNextQuestion]
        have hshape' : kindsOf ((s.conversation ++
              [{ type := .answer, content := s.answer, timestamp := now }]) ++
              [{ type := .question, content := (pickQuestion s.questionIndex).text,
                 timestamp := now }]) =
            qaPairs (s.questionIndex + 1) ++ [EntryKind.question] := by
          rw [kindsOf_append, kindsOf_append, hshp, qaPairs_append_pair s.questionIndex]
          simp [kindsOf]
        exact ⟨htot, htr, Or.inl ⟨hshape', show s.questionIndex + 1 < 8 by omega⟩,
          fun _ => ⟨hstart, show s.questionIndex + 1 < 8 by omega, hshape'⟩⟩
      · simp only [hlt, if_false, endInterview]
        have h7 : s.questionIndex = 7 := by omega
        refine ⟨htot, htr, Or.inr ⟨?_, h7⟩,
          fun h => absurd h (show ¬s.navigations + 1 = 0 by omega)⟩
        show kindsOf (s.conversation ++
            [{ type := .answer, content := s.answer, timestamp := now }]) = qaPairs 8
        rw [kindsOf_append, hshp, h7,
          show qaPairs 8 = qaPairs 7 ++ [EntryKind.question, EntryKind.answer] from
            qaPairs_append_pair 7]
        simp [kindsOf]
  | timerTick now =>
    show Inv (tick now s)
    rw [tick]
    by_cases hg : s.sessionStarted = true ∧ 0 < s.timeRemaining
    · rw [if_pos hg, timerEffect]
      by_cases hg2 : ({ s with timeRemaining := s.timeRemaining - 1 } : SessionState).sessionStarted = true ∧
          0 < ({ s with timeRemaining := s.timeRemaining - 1 } : SessionState).timeRemaining
      · rw [if_pos hg2]
        have h2 := hg.2
        exact ⟨htot, show (0 : Int) ≤ s.timeRemaining - 1 by omega, hshape,
          fun _ => ⟨hstart, hqlt, hshp⟩⟩
      · rw [if_neg hg2]
        by_cases hg3 : ({ s with timeRemaining := s.timeRemaining - 1 } : SessionState).timeRemaining = 0 ∧
            ({ s with timeRemaining := s.timeRemaining - 1 } : SessionState).sessionStarted = true
        · rw [if_pos hg3, endInterview]
          refine ⟨htot, ?_, hshape,
            fun h => absurd h (show ¬s.navigations + 1 = 0 by omega)⟩
          show (0 : Int) ≤ s.timeRemaining - 1
          have := hg3.1
          simp only at this
          omega
        · rw [if_neg hg3]
          have h2 := hg.2
          exact ⟨htot, show (0 : Int) ≤ s.timeRemaining - 1 by omega, hshape,
            fun _ => ⟨hstart, hqlt, hshp⟩⟩
    · rw [if_neg hg]
      exact ⟨htot, htr, hshape, fun _ => ⟨hstart, hqlt, hshp⟩⟩
  | endButton now =>
    show Inv (endInterview now s s)
    rw [endInterview]
    exact ⟨htot, htr, hshape, fun h => absurd h (show ¬s.navigations + 1 = 0 by omega)⟩

lemma reachable_inv {config : InterviewConfig} {now₀ : Nat} {s : SessionState}
    (h : Reachable config now₀ s) : Inv s := by
  induction h with
  | init => exact inv_init config now₀
  | step e hs hnav ih => exact inv_step e _ ih hnav

/-! ## API gateway client (`ApiClient.request`) -/

/-- The `ApiResponse<T>` shape produced by `ApiClient.request`: the `data`
and `error` fields of the returned object (`message` is never set by
`request` itself). -/
structure ApiResponse (α : Type) where
  data : Option α
  error : Option String
deriving Repr

/-- Outcome of the `fetch` call plus `await response.json()` inside
`ApiClient.request`: the response was ok and parsed to `body`; or the
response had a non-ok HTTP status and its parsed body's `message` field is
`message` (`none` when absent, `some ""` when an empty string); or `fetch`
or `response.json()` threw (`message` is the `Error`'s message when the
thrown value was an `Error`). -/
inductive FetchOutcome (α : Type) where
  | ok (body : α)
  | httpError (status : Nat) (message : Option String)
  | thrown (message : Option String)

/-- JavaScript `m || d` for an optional string `m`: the default is used when
`m` is absent or empty (falsy). -/
def orDefault (m : Option String) (d : String) : String :=
  match m with
  | some t => if t = "" then d else t
  | none => d

/-- `ApiClient.request`, as a function of the backend outcome:
`return { data }` on ok, `return { error: data.message || ... }` on a
non-ok status, `return { error: ... }` in the catch block. -/
def request (α : Type) : FetchOutcome α → ApiResponse α
  | .ok body => { data := some body, error := none }
  | .httpError status message =>
      { data := none
        error := some (orDefault message ("HTTP error! status: " ++ toString status)) }
  | .thrown message =>
      { data := none, error := some (message.getD "Network error occurred") }

/-! ## Setup page (`handleStartInterview`) -/

/-- The `useState` hooks of `InterviewSetupPage`, plus ghost fields for the
`alert`, the `localStorage.setItem('interviewConfig', ...)` write and
`router.push('/interview/session')`. -/
structure SetupState where
  selectedRole : String
  customJobDescription : String
  interviewType : String
  difficulty : Nat
  duration : Nat
  inputMethod : String
  storedConfig : Option InterviewConfig
  alerted : Bool
  navigatedToSession : Bool
deriving DecidableEq, Repr

/-- `handleStartInterview` of the setup page: the guard is
`!selectedRole && !customJobDescription.trim()` (the role is compared
untrimmed); on failure it alerts and returns, otherwise it stores the
config and navigates to the session page. -/
def handleStartInterview (s : SetupState) : SetupState :=
  if s.selectedRole = "" ∧ jsTrim s.customJobDescription = "" then
    { s with alerted := true }
  else
    let config : InterviewConfig :=
      { role := s.selectedRole
        customJobDescription := s.customJobDescription
        interviewType := s.interviewType
        difficulty := s.difficulty
        duration := s.duration
        inputMethod := s.inputMethod }
    { s with storedConfig := some config, navigatedToSession := true }

/-- Spec §4.1's validity condition on a configuration: a role or a custom
description is present. -/
def configValid (c : InterviewConfig) : Prop :=
  ¬(c.role = "" ∧ jsTrim c.customJobDescription = "")

instance (c : InterviewConfig) : Decidable (configValid c) := by
  unfold configValid
  infer_instance

/-! ## Concrete sample data for witnesses -/

/-- The example configuration of spec §8. -/
def sampleConfig : InterviewConfig :=
  { role := "software-engineer"
    customJobDescription := ""
    interviewType := "technical"
    difficulty := 2
    duration := 20
    inputMethod := "text" }

/-- A session state after `n` submitted answers of a scripted full run of
the example session (answers are non-empty, so each submission goes
through). -/
def answeredTimes : Nat → SessionState
  | 0 => initSession sampleConfig 0
  | n + 1 => submitAnswer (n + 1) { answeredTimes n with answer := "My answer" }

/-- A setup state in which both a role is selected and a custom job
description is pasted. -/
def bothFilledSetup : SetupState :=
  { selectedRole := "software-engineer"
    customJobDescription := "Senior engineer on the billing team."
    interviewType := "technical"
    difficulty := 2
    duration := 20
    inputMethod := "both"
    storedConfig := none
    alerted := false
    navigatedToSession := false }

/-- A setup state with no role selected and a whitespace-only description. -/
def emptySetup : SetupState :=
  { selectedRole := ""
    customJobDescription := "   "
    interviewType := "technical"
    difficulty := 2
    duration := 20
    inputMethod := "both"
    storedConfig := none
    alerted := false
    navigatedToSession := false }

/-! ## Claim theorems -/

/-- Claim C4: in every session state, submitting while the answer buffer is
empty or whitespace-only sets the empty-answer error message and changes
nothing else: `questionIndex`, the conversation log and the pending answer
buffer are unchanged, no question entry is added, and the session is neither
persisted nor ended. -/
theorem submitAnswer_empty_rejected (now : Nat) (s : SessionState)
    (h : jsTrim s.answer = "") :
    (submitAnswer now s).errorMsg = emptyAnswerMessage ∧
    (submitAnswer now s).questionIndex = s.questionIndex ∧
    (submitAnswer now s).conversation = s.conversation ∧
    (submitAnswer now s).answer = s.answer ∧
    (submitAnswer now s).persistCount = s.persistCount ∧
    (submitAnswer now s).navigations = s.navigations := by
  rw [submitAnswer, if_pos h]
  exact ⟨rfl, rfl, rfl, rfl, rfl, rfl⟩

/-- Witness for C4: a concrete whitespace-only answer and a concrete empty
answer are both rejected without touching the state. -/
theorem submitAnswer_empty_rejected_witness :
    (jsTrim "   " = "" ∧
      (submitAnswer 7 { initSession sampleConfig 0 with answer := "   " }).conversation =
        (initSession sampleConfig 0).conversation) ∧
    (jsTrim "" = "" ∧
      (submitAnswer 7 { initSession sampleConfig 0 with answer := "" }).questionIndex =
        (initSession sampleConfig 0).questionIndex) := by
  constructor
  · exact ⟨by decide,
      (submitAnswer_empty_rejected 7 _ (by decide)).2.2.1⟩
  · exact ⟨by decide,
      (submitAnswer_empty_rejected 7 _ (by decide)).2.1⟩

/-- Claim C6: for every valid configuration, starting the session fixes
`totalQuestions = 8`, initializes the timer to `duration * 60` seconds, and
issues exactly one question — the conversation log right after start is a
single question entry, with no answers. -/
theorem start_issues_one_question (config : InterviewConfig) (now : Nat)
    (_hvalid : configValid config) :
    (initSession config now).totalQuestions = 8 ∧
    (initSession config now).timeRemaining = ((config.duration * 60 : Nat) : Int) ∧
    (initSession config now).conversation =
      [{ type := .question, content := firstMockQuestion.text, timestamp := now }] ∧
    questionCount (initSession config now).conversation = 1 ∧
    answerCount (initSession config now).conversation = 0 := by
  by_cases hd : config.duration = 0 <;>
    simp [initSession, startInterview, generateNextQuestion, timerEffect, endInterview,
      pickQuestion, mockQuestions, questionCount, answerCount, kindsOf,
      isQuestionKind, isAnswerKind, List.filter, hd]

/-- Witness for C6: the spec §8 example configuration (duration 20) yields
`totalQuestions = 8`, `timeRemaining = 1200`, and a one-question log. -/
theorem start_issues_one_question_witness :
    configValid sampleConfig ∧
    (initSession sampleConfig 0).totalQuestions = 8 ∧
    (initSession sampleConfig 0).timeRemaining = 1200 ∧
    questionCount (initSession sampleConfig 0).conversation = 1 := by
  have h := start_issues_one_question sampleConfig 0 (by decide)
  exact ⟨by decide, h.1, by rw [h.2.1]; rfl, h.2.2.2.1⟩

/-- Claim C8: for every backend outcome — parsed success, non-ok HTTP
status, or a thrown network/parse failure — `ApiClient.request` returns
exactly one of a `{data}` shape or an `{error}` shape: never both fields
populated, never neither. -/
theorem request_data_xor_error (α : Type) (outcome : FetchOutcome α) :
    ((request α outcome).data.isSome ∧ (request α outcome).error = none) ∨
    ((request α outcome).data = none ∧ (request α outcome).error.isSome) := by
  cases outcome with
  | ok body => exact Or.inl ⟨rfl, rfl⟩
  | httpError status message => exact Or.inr ⟨rfl, rfl⟩
  | thrown message => exact Or.inr ⟨rfl, rfl⟩

/-- Witness for C8 at a concrete outcome: a parsed success response yields
exactly the `{data}` shape. -/
theorem request_data_xor_error_witness :
    ((request Nat (.ok 3)).data.isSome ∧ (request Nat (.ok 3)).error = none) ∨
    ((request Nat (.ok 3)).data = none ∧ (request Nat (.ok 3)).error.isSome) :=
  request_data_xor_error Nat (.ok 3)

/-- Claim C1: in an Active session with a non-empty (after trimming) answer,
`submitAnswer` appends exactly one answer entry, clears the pending-answer
buffer, and then: if `questionIndex + 1 < totalQuestions` it increments
`questionIndex` and appends exactly one next question; otherwise it ends the
session (persists and navigates once) and requests no further question. -/
theorem submitAnswer_progression (now : Nat) (s : SessionState)
    (_hActive : s.sessionStarted = true ∧ s.navigations = 0)
    (hAns : jsTrim s.answer ≠ "") :
    (submitAnswer now s).answer = "" ∧
    (s.questionIndex + 1 < s.totalQuestions →
      (submitAnswer now s).conversation = s.conversation ++
        [{ type := .answer, content := s.answer, timestamp := now },
         { type := .question, content := (pickQuestion s.questionIndex).text,
           timestamp := now }] ∧
      (submitAnswer now s).questionIndex = s.questionIndex + 1 ∧
      (submitAnswer now s).persistCount = s.persistCount ∧
      (submitAnswer now s).navigations = s.navigations) ∧
    (¬s.questionIndex + 1 < s.totalQuestions →
      (submitAnswer now s).conversation = s.conversation ++
        [{ type := .answer, content := s.answer, timestamp := now }] ∧
      questionCount (submitAnswer now s).conversation = questionCount s.conversation ∧
      (submitAnswer now s).questionIndex = s.questionIndex ∧
      (submitAnswer now s).persistCount = s.persistCount + 1 ∧
      (submitAnswer now s).navigations = s.navigations + 1) := by
  by_cases hlt : s.questionIndex + 1 < s.totalQuestions
  · have hs : submitAnswer now s =
        { s with isLoading := false
                 currentQuestion := some (pickQuestion s.questionIndex)
                 questionIndex := s.questionIndex + 1
                 answer := ""
                 conversation := s.conversation ++
                   [{ type := .answer, content := s.answer, timestamp := now },
                    { type := .question, content := (pickQuestion s.questionIndex).text,
                      timestamp := now }] } := by
      simp [submitAnswer, hAns, hlt, generateNextQuestion]
    rw [hs]
    exact ⟨rfl, fun _ => ⟨rfl, rfl, rfl, rfl⟩, fun h => absurd hlt h⟩
  · have hs : submitAnswer now s =
        { s with isLoading := false
                 answer := ""
                 conversation := s.conversation ++
                   [{ type := .answer, content := s.answer, timestamp := now }]
                 lastInterview := some (interviewData s now)
                 persistCount := s.persistCount + 1
                 navigations := s.navigations + 1 } := by
      simp [submitAnswer, hAns, hlt, endInterview]
    rw [hs]
    refine ⟨rfl, fun h => absurd h hlt, fun _ => ⟨rfl, ?_, rfl, rfl, rfl⟩⟩
    show questionCount (s.conversation ++ _) = questionCount s.conversation
    rw [questionCount_eq, questionCount_eq, kindsOf_append]
    simp [kindsOf, List.filter_append, isQuestionKind]

/-- Witness for C1: submitting a concrete non-empty answer right after the
example session starts appends the answer and the second question and bumps
`questionIndex` to 1. -/
theorem submitAnswer_progression_witness :
    (submitAnswer 9 { initSession sampleConfig 0 with
        answer := "I enjoy hard problems." }).answer = "" ∧
    (submitAnswer 9 { initSession sampleConfig 0 with
        answer := "I enjoy hard problems." }).questionIndex = 1 := by
  have h := submitAnswer_progression 9
    { initSession sampleConfig 0 with answer := "I enjoy hard problems." }
    ⟨rfl, rfl⟩ (by decide)
  exact ⟨h.1, (h.2.1 (by decide)).2.1⟩

/-- Claim C2: in every reachable state of a session, the conversation log
has `answerCount ≤ questionCount ≤ answerCount + 1` and never contains two
consecutive entries of the same kind. -/
theorem conversation_alternation {config : InterviewConfig} {now₀ : Nat}
    {s : SessionState} (h : Reachable config now₀ s) :
    answerCount s.conversation ≤ questionCount s.conversation ∧
    questionCount s.conversation ≤ answerCount s.conversation + 1 ∧
    List.Chain' (fun a b => a ≠ b) (kindsOf s.conversation) := by
  obtain ⟨-, -, hshape, -⟩ := reachable_inv h
  rcases hshape with ⟨hshp, -⟩ | ⟨hshp, -⟩ <;>
    rw [answerCount_eq, questionCount_eq, hshp]
  · refine ⟨?_, ?_, chain_ne_qaPairs_q s.questionIndex⟩ <;>
      simp [List.filter_append, filter_isAnswer_qaPairs, filter_isQuestion_qaPairs,
        isAnswerKind, isQuestionKind]
  · refine ⟨?_, ?_, chain_ne_qaPairs 8⟩ <;>
      simp [filter_isAnswer_qaPairs, filter_isQuestion_qaPairs]

/-- Witness for C2: the counting and alternation bounds hold at the concrete
initial state of the example session. -/
theorem conversation_alternation_witness :
    answerCount (initSession sampleConfig 0).conversation ≤
      questionCount (initSession sampleConfig 0).conversation ∧
    questionCount (initSession sampleConfig 0).conversation ≤
      answerCount (initSession sampleConfig 0).conversation + 1 ∧
    List.Chain' (fun a b => a ≠ b) (kindsOf (initSession sampleConfig 0).conversation) :=
  conversation_alternation Reachable.init

/-- Claim C3: in every reachable state of an active session (the page has
not navigated away), `questionIndex < totalQuestions`, the question-entry
count of the log equals `questionIndex + 1`, and the timer value is never
negative. -/
theorem active_session_invariants {config : InterviewConfig} {now₀ : Nat}
    {s : SessionState} (h : Reachable config now₀ s)
    (hActive : s.navigations = 0) :
    s.questionIndex < s.totalQuestions ∧
    questionCount s.conversation = s.questionIndex + 1 ∧
    0 ≤ s.timeRemaining := by
  obtain ⟨htot, htr, -, hact⟩ := reachable_inv h
  obtain ⟨-, hql, hshp⟩ := hact hActive
  refine ⟨by omega, ?_, htr⟩
  rw [questionCount_eq, hshp]
  simp [List.filter_append, filter_isQuestion_qaPairs, isQuestionKind]

/-- Witness for C3: the active-session invariants hold at the concrete
initial state of the example session. -/
theorem active_session_invariants_witness :
    (initSession sampleConfig 0).questionIndex <
      (initSession sampleConfig 0).totalQuestions ∧
    questionCount (initSession sampleConfig 0).conversation =
      (initSession sampleConfig 0).questionIndex + 1 ∧
    0 ≤ (initSession sampleConfig 0).timeRemaining :=
  active_session_invariants Reachable.init rfl

/-- Counterexample for C5: `endInterview` is not an idempotent no-op on an
already-ended session.  Ending the freshly started example session once and
then calling `endInterview` again yields a second persistence
(`persistCount` 2) and a changed state. -/
theorem endInterview_not_idempotent :
    (endInterview 10 (initSession sampleConfig 0) (initSession sampleConfig 0)).persistCount
      = 1 ∧
    (endInterview 11
      (endInterview 10 (initSession sampleConfig 0) (initSession sampleConfig 0))
      (endInterview 10 (initSession sampleConfig 0) (initSession sampleConfig 0))).persistCount
      = 2 ∧
    endInterview 11
        (endInterview 10 (initSession sampleConfig 0) (initSession sampleConfig 0))
        (endInterview 10 (initSession sampleConfig 0) (initSession sampleConfig 0)) ≠
      endInterview 10 (initSession sampleConfig 0) (initSession sampleConfig 0) := by
  refine ⟨rfl, rfl, ?_⟩
  intro hEq
  have : (2 : Nat) = 1 := congrArg SessionState.persistCount hEq
  exact absurd this (by decide)

/-- Amended C5: the timer ends the session exactly once — once
`timeRemaining` is 0 a tick is a no-op (no timeout is even scheduled), and
the tick that reaches 0 persists and navigates exactly once; but
`endInterview` itself has no idempotence guard, so only the timer path is
exactly-once (a further direct `endInterview` call would persist again). -/
theorem timer_end_exactly_once (now now' : Nat) (s : SessionState)
    (hstart : s.sessionStarted = true) :
    (s.timeRemaining = 0 → tick now s = s) ∧
    (s.timeRemaining = 1 →
      (tick now s).persistCount = s.persistCount + 1 ∧
      (tick now s).navigations = s.navigations + 1 ∧
      (tick now s).timeRemaining = 0 ∧
      tick now' (tick now s) = tick now s) := by
  constructor
  · intro h0
    have hc : ¬(s.sessionStarted = true ∧ 0 < s.timeRemaining) := by simp [h0]
    rw [tick, if_neg hc]
  · intro h1
    have hs : tick now s = endInterview now
        { s with timeRemaining := 0 } { s with timeRemaining := 0 } := by
      rw [tick, if_pos ⟨hstart, by omega⟩, timerEffect]
      rw [if_neg (by simp [h1]), if_pos (by simp [hstart, h1])]
      simp [h1]
    rw [hs, endInterview]
    refine ⟨rfl, rfl, rfl, ?_⟩
    rw [tick, if_neg]
    simp

/-- Witness for the amended C5: on a concrete one-second-left session the
tick persists once and a second tick changes nothing. -/
theorem timer_end_exactly_once_witness :
    (tick 1 { initSession sampleConfig 0 with timeRemaining := 1 }).persistCount =
      ({ initSession sampleConfig 0 with timeRemaining := 1 } : SessionState).persistCount
        + 1 ∧
    tick 2 (tick 1 { initSession sampleConfig 0 with timeRemaining := 1 }) =
      tick 1 { initSession sampleConfig 0 with timeRemaining := 1 } := by
  have h := timer_end_exactly_once 1 2
    { initSession sampleConfig 0 with timeRemaining := 1 } rfl
  exact ⟨(h.2 rfl).1, (h.2 rfl).2.2.2⟩

/-- C7 at the failing input: in a scripted full run of the example session
(all 8 questions answered, the 8th `submitAnswer` ends the interview), the
live conversation log has 16 entries, but the persisted `InterviewRecord`
contains only its first 15 — the final answer entry is dropped, because
`endInterview` reads the render-time `conversation` from before the final
functional append. -/
theorem record_drops_final_answer :
    (answeredTimes 8).navigations = 1 ∧
    (answeredTimes 8).conversation.length = 16 ∧
    ((answeredTimes 8).lastInterview.map fun r => r.conversation.length) = some 15 ∧
    ((answeredTimes 8).lastInterview.map fun r => r.conversation) =
      some (answeredTimes 8).conversation.dropLast := by
  exact ⟨rfl, rfl, rfl, rfl⟩

/-- Counterexample for C9: a setup state with BOTH a role selected and a
non-empty custom job description starts the session (stores the config and
navigates, no alert) — the claim's "exactly one of role/customJobDescription
must be non-empty" would require this start to fail. -/
theorem setup_both_filled_starts :
    bothFilledSetup.selectedRole ≠ "" ∧
    jsTrim bothFilledSetup.customJobDescription ≠ "" ∧
    (handleStartInterview bothFilledSetup).alerted = false ∧
    (handleStartInterview bothFilledSetup).navigatedToSession = true ∧
    (handleStartInterview bothFilledSetup).storedConfig.isSome = true := by
  decide

/-- Amended C9: starting fails (alert, nothing persisted, no navigation) iff
the selected role is the empty string — the role is compared untrimmed — and
the custom job description is empty after trimming; otherwise (at least one
present) the config is persisted and the page navigates to the session. -/
theorem setup_validation (s : SetupState) :
    (s.selectedRole = "" ∧ jsTrim s.customJobDescription = "" →
      (handleStartInterview s).alerted = true ∧
      (handleStartInterview s).storedConfig = s.storedConfig ∧
      (handleStartInterview s).navigatedToSession = s.navigatedToSession) ∧
    (¬(s.selectedRole = "" ∧ jsTrim s.customJobDescription = "") →
      (handleStartInterview s).alerted = s.alerted ∧
      (handleStartInterview s).storedConfig = some
        { role := s.selectedRole
          customJobDescription := s.customJobDescription
          interviewType := s.interviewType
          difficulty := s.difficulty
          duration := s.duration
          inputMethod := s.inputMethod } ∧
      (handleStartInterview s).navigatedToSession = true) := by
  constructor
  · intro hfail
    rw [handleStartInterview, if_pos hfail]
    exact ⟨rfl, rfl, rfl⟩
  · intro hok
    rw [handleStartInterview, if_neg hok]
    exact ⟨rfl, rfl, rfl⟩

/-- Witness for the amended C9: the concrete all-empty setup state (no role,
whitespace-only description) alerts and does not start, and the concrete
both-filled state starts. -/
theorem setup_validation_witness :
    ((handleStartInterview emptySetup).alerted = true ∧
      (handleStartInterview emptySetup).navigatedToSession = false) ∧
    (handleStartInterview bothFilledSetup).navigatedToSession = true := by
  have h1 := (setup_validation emptySetup).1 (by decide)
  have h2 := (setup_validation bothFilledSetup).2 (by decide)
  exact ⟨⟨h1.1, h1.2.2⟩, h2.2.2⟩

/-- Claim C10: the `InterviewRecord` built by `endInterview` always sets
`questionsAnswered` to the closure's `questionIndex + 1`; in every reachable
active session state this equals the number of questions issued, and it
strictly exceeds the number of answer entries in the record's own
conversation (the open question's answer was never submitted). -/
theorem record_questionsAnswered {config : InterviewConfig} {now₀ : Nat}
    {s : SessionState} (h : Reachable config now₀ s)
    (hActive : s.navigations = 0) (now : Nat) :
    (∀ (closure : SessionState) (t : Nat),
      (interviewData closure t).questionsAnswered = closure.questionIndex + 1) ∧
    (endInterview now s s).lastInterview = some (interviewData s now) ∧
    (interviewData s now).questionsAnswered = questionCount s.conversation ∧
    answerCount (interviewData s now).conversation <
      (interviewData s now).questionsAnswered := by
  obtain ⟨-, -, -, hact⟩ := reachable_inv h
  obtain ⟨-, -, hshp⟩ := hact hActive
  refine ⟨fun closure t => rfl, rfl, ?_, ?_⟩
  · show s.questionIndex + 1 = questionCount s.conversation
    rw [questionCount_eq, hshp]
    simp [List.filter_append, filter_isQuestion_qaPairs, isQuestionKind]
  · show answerCount s.conversation < s.questionIndex + 1
    rw [answerCount_eq, hshp]
    simp [List.filter_append, filter_isAnswer_qaPairs, isAnswerKind]

/-- Witness for C10: ending the concrete freshly started example session
records `questionsAnswered = 1` while the log holds no answers. -/
theorem record_questionsAnswered_witness :
    (interviewData (initSession sampleConfig 0) 4).questionsAnswered =
      questionCount (initSession sampleConfig 0).conversation ∧
    answerCount (interviewData (initSession sampleConfig 0) 4).conversation <
      (interviewData (initSession sampleConfig 0) 4).questionsAnswered := by
  have h := @record_questionsAnswered sampleConfig 0 (initSession sampleConfig 0)
    Reachable.init rfl 4
  exact ⟨h.2.2.1, h.2.2.2⟩

end MockMate
